import Mathlib

/-!
Verification of the community-talk repository: a shallow embedding of the
typed event dispatcher described in the spec (the dispatcher itself is only
a type-level `declare function sendEvent` in `src/Playground/Objects.ts` and
`src/Session.2/README.md`, so the validator and dispatcher bodies are
modelled from the spec), together with embeddings of the concrete snippets
`src/Playground/non-null.tsx`, `src/Session.2/discriminated.ts`,
`src/index.tsx` (fetchPokemon) and `src/unnamed/part_001` (Course).
-/

namespace CommunityTalk

/-- Primitive field types a payload schema can declare. -/
inductive PrimTy where
  | string
  | number
  | boolean
deriving DecidableEq, Repr

/-- Runtime payload field values (primitive values of the snippets:
strings such as "123" and numbers such as 123). -/
inductive Value where
  | str (s : String)
  | num (n : Int)
  | bool (b : Bool)
deriving DecidableEq, Repr

/-- The runtime type of a value. -/
def typeOf : Value → PrimTy
  | .str _ => .string
  | .num _ => .number
  | .bool _ => .boolean

/-- A payload is a structured object: an ordered list of named fields. -/
abbrev Payload := List (String × Value)

/-- Modelled from the spec: a PayloadSchema is "a description of required
fields and their expected primitive types"; it is closed (no undeclared
fields permitted) and every declared field is required. -/
abbrev PayloadSchema := List (String × PrimTy)

/-- Modelled from the spec: an EventVariant is a named member of the event
catalog, with a unique `kind` discriminant and an optional payload schema
(absent means "no payload accepted"). -/
structure EventVariant where
  kind : String
  payloadSchema : Option PayloadSchema
deriving DecidableEq

/-- Modelled from the spec: the Event Catalog, a closed set of named event
variants, fixed at configuration time. -/
abbrev Catalog := List EventVariant

/-- Field-level validation errors, as the spec's taxonomy distinguishes
them: missing required field, wrong primitive type, disallowed extra field,
and a missing required payload altogether. -/
inductive FieldError where
  | missing (field : String)
  | wrongType (field : String)
  | extra (field : String)
  | missingPayload
deriving DecidableEq, Repr

/-- Modelled from the spec: the dispatcher error taxonomy of section 7. -/
inductive DispatchError where
  | unknownVariant
  | validationError (errors : List FieldError)
  | unexpectedPayload
deriving DecidableEq, Repr

/-- Field lookup in a payload (first binding wins, as in a JS object the
keys are unique; duplicate keys cannot arise from object literals). -/
def lookupField (p : Payload) (k : String) : Option Value :=
  (List.find? (fun f => f.1 == k) p).map (fun f => f.2)

/-- Declared type lookup in a schema. -/
def lookupSchema (s : PayloadSchema) (k : String) : Option PrimTy :=
  (List.find? (fun f => f.1 == k) s).map (fun f => f.2)

/-- Modelled from the spec: `validate(payload, schema) -> ok | list of
field errors`.  Every declared field must be present with the declared
primitive type (else a missing-field or wrong-type error), and every
payload field must be declared (else a closed-schema extra-field error). -/
def validate (payload : Payload) (schema : PayloadSchema) : List FieldError :=
  (schema.filterMap fun f =>
    match lookupField payload f.1 with
    | none => some (.missing f.1)
    | some v => if typeOf v = f.2 then none else some (.wrongType f.1)) ++
  (payload.filterMap fun f =>
    if (lookupSchema schema f.1).isSome then none else some (.extra f.1))

/-- Variant lookup by kind in a catalog. -/
def findVariant (cat : Catalog) (kind : String) : Option EventVariant :=
  List.find? (fun v => v.kind == kind) cat

/-- Modelled from the spec: `schemaFor(kind)` fails with UnknownVariant if
`kind` is not in the catalog, and otherwise yields the variant's optional
schema. -/
def schemaFor (cat : Catalog) (kind : String) :
    Except DispatchError (Option PayloadSchema) :=
  match findVariant cat kind with
  | none => .error .unknownVariant
  | some v => .ok v.payloadSchema

/-- Modelled from the spec: the dispatcher `send(kind, payload?)`.  It
validates the request against the catalog and, on success, yields the full
`(kind, payload)` request forwarded to the delivery sink; on failure it
yields the error and forwards nothing. -/
def send (cat : Catalog) (kind : String) (payload : Option Payload) :
    Except DispatchError (String × Option Payload) :=
  match findVariant cat kind with
  | none => .error .unknownVariant
  | some v =>
    match v.payloadSchema, payload with
    | none, none => .ok (kind, none)
    | none, some _ => .error .unexpectedPayload
    | some _, none => .error (.validationError [.missingPayload])
    | some s, some p =>
      let errs := validate p s
      if errs.isEmpty then .ok (kind, some p)
      else .error (.validationError errs)

/-- A request is valid when its kind is in the catalog and its payload
passes the variant's schema check (payload absent for schema-less variants,
payload present and validating cleanly for schema-bearing ones). -/
def requestValid (cat : Catalog) (kind : String) (payload : Option Payload) :
    Bool :=
  match findVariant cat kind with
  | none => false
  | some v =>
    match v.payloadSchema, payload with
    | none, none => true
    | some s, some p => (validate p s).isEmpty
    | _, _ => false

/-- The catalog invariant: kind discriminants are unique. -/
def kindsUnique (cat : Catalog) : Prop :=
  (cat.map EventVariant.kind).Nodup

instance (cat : Catalog) : Decidable (kindsUnique cat) := by
  unfold kindsUnique; infer_instance

/-- The concrete catalog of `src/Playground/Objects.ts`: `Evt` is
SIGN_IN with payload schema containing field userID of type string, and
SIGN_OUT with no payload. -/
def catalogEvt : Catalog :=
  [⟨"SIGN_IN", some [("userID", .string)]⟩, ⟨"SIGN_OUT", none⟩]

/-- The concrete catalog of the spec's scenario B, drawn from
`src/Session.2/discriminated.ts`: ALERT carries no payload, CONFIRM carries
a message string. -/
def catalogProps : Catalog :=
  [⟨"ALERT", none⟩, ⟨"CONFIRM", some [("message", .string)]⟩]

/-- `Props` of `src/Session.2/discriminated.ts`: a discriminated union of
Alert (only a type tag) and Confirm (type tag plus confirmButtonMassage). -/
inductive Props where
  | alert
  | confirm (confirmButtonMassage : String)
deriving DecidableEq

/-- The `type` discriminant of a `Props` value. -/
def Props.tag : Props → String
  | .alert => "alert"
  | .confirm _ => "confirm"

/-- `Modal` of `src/Session.2/discriminated.ts`: inside the
`props.type === "confirm"` branch it reads `props.confirmButtonMassage`
and uppercases it; we return the message it computed there (none when the
branch is not taken; the source then just returns null). -/
def Modal (props : Props) : Option String :=
  if props.tag = "confirm" then
    match props with
    | .confirm m => some m.toUpper
    | .alert => none
  else none

/-- A product of `src/Playground/non-null.tsx`. -/
structure Product where
  name : String
  id : String
deriving DecidableEq

/-- `PRODUCTS` of `src/Playground/non-null.tsx`. -/
def PRODUCTS : List Product :=
  [⟨"Foo", "foo"⟩, ⟨"Bar", "bar"⟩]

/-- `ProductDetails` of `src/Playground/non-null.tsx`:
`PRODUCTS.find(product => product.id === id)!` followed by `product.name`.
The non-null assertion is modelled by the Option: a `none` result is the
runtime failure of reading `.name` off `undefined`. -/
def ProductDetails (id : String) : Option String :=
  (List.find? (fun product => product.id == id) PRODUCTS).map Product.name

/-- A special attack of `PokemonData` in `src/index.tsx`. -/
structure Attack where
  name : String
  ty : String
  damage : Int
deriving DecidableEq

/-- The `attacks` object of `PokemonData` in `src/index.tsx`. -/
structure Attacks where
  special : List Attack
deriving DecidableEq

/-- A pokemon as delivered by the API: `Omit<PokemonData, "fetchedAt">`
in `src/index.tsx`. -/
structure Pokemon where
  id : String
  number : String
  name : String
  image : String
  attacks : Attacks
deriving DecidableEq

/-- `PokemonData` of `src/index.tsx`: a pokemon plus the `fetchedAt`
helper field. -/
structure PokemonData extends Pokemon where
  fetchedAt : String
deriving DecidableEq

/-- A clock reading, standing in for the `Date` that `formatDate` reads. -/
structure Date where
  hours : Nat
  minutes : Nat
  seconds : Nat
  milliseconds : Nat
deriving DecidableEq

/-- `String.padStart` as used by `formatDate` in `src/index.tsx`. -/
def padStart (s : String) (n : Nat) (c : Char) : String :=
  String.mk (List.replicate (n - s.length) c) ++ s

/-- `formatDate` of `src/index.tsx`. -/
def formatDate (date : Date) : String :=
  toString date.hours ++ ":" ++ padStart (toString date.minutes) 2 '0'
    ++ " " ++ padStart (toString date.seconds) 2 '0'
    ++ "." ++ padStart (toString date.milliseconds) 3 '0'

/-- An entry of the `errors` array of `JSONResponse` in `src/index.tsx`. -/
structure GraphQLError where
  message : String
deriving DecidableEq

/-- The `data` object of `JSONResponse` in `src/index.tsx`; `pokemon` is
optional at runtime (the source guards with `if (pokemon)`). -/
structure QueryData where
  pokemon : Option Pokemon
deriving DecidableEq

/-- `JSONResponse` of `src/index.tsx`. -/
structure JSONResponse where
  data : Option QueryData
  errors : Option (List GraphQLError)
deriving DecidableEq

/-- The HTTP response `fetchPokemon` inspects: its `ok` flag and the JSON
body it destructures. -/
structure Response where
  ok : Bool
  body : JSONResponse
deriving DecidableEq

/-- `fetchPokemon` of `src/index.tsx`, with the network hop made explicit:
given the response and the current time, it resolves (`Except.ok`) with the
pokemon extended by `fetchedAt`, or rejects (`Except.error`) with the
"no pokemon" message or the joined graphql error messages. -/
def fetchPokemon (name : String) (response : Response) (now : Date) :
    Except String PokemonData :=
  if response.ok then
    match (response.body.data.map QueryData.pokemon).join with
    | some pokemon =>
        .ok { toPokemon := pokemon, fetchedAt := formatDate now }
    | none =>
        .error ("No pokemon with the name \"" ++ name ++ "\"")
  else
    .error (((response.body.errors.map fun es =>
      String.intercalate "\n" (es.map GraphQLError.message))).getD "unknown")

/-- `Course` of `src/unnamed/part_001`: a Free course has a url and can
carry no price (`price?: never`), a Paid course has a price and can carry
no url (`url?: never`). -/
inductive Course where
  | free (name : String) (url : String)
  | paid (name : String) (price : Int)
deriving DecidableEq

/-- The `url` field as observable on a `Course` value. -/
def Course.url : Course → Option String
  | .free _ u => some u
  | .paid _ _ => none

/-- The `price` field as observable on a `Course` value. -/
def Course.price : Course → Option Int
  | .free _ _ => none
  | .paid _ p => some p

/-- The declared `course` value of `src/unnamed/part_001`:
name "Hello World", price 5. -/
def course : Course := .paid "Hello World" 5

/-! Helper lemmas about variant lookup and validation. -/

theorem findVariant_of_mem {cat : Catalog} {v : EventVariant}
    (hu : kindsUnique cat) (hv : v ∈ cat) : findVariant cat v.kind = some v := by
  induction cat with
  | nil => cases hv
  | cons w rest ih =>
    unfold kindsUnique at hu
    simp only [List.map_cons, List.nodup_cons] at hu
    rcases List.mem_cons.mp hv with h | h
    · subst h
      simp [findVariant, List.find?_cons]
    · have hne : w.kind ≠ v.kind := by
        intro he
        exact hu.1 (he ▸ List.mem_map_of_mem EventVariant.kind h)
      have ht := ih (by unfold kindsUnique; exact hu.2) h
      have hb : (w.kind == v.kind) = false := by simp [hne]
      unfold findVariant at ht ⊢
      rw [List.find?_cons, hb]
      exact ht

theorem findVariant_eq_none {cat : Catalog} {kind : String}
    (h : kind ∉ cat.map EventVariant.kind) : findVariant cat kind = none := by
  unfold findVariant
  rw [List.find?_eq_none]
  intro v hv hbeq
  exact h ((beq_iff_eq.mp hbeq) ▸ List.mem_map_of_mem EventVariant.kind hv)

theorem mem_validate_missing {p : Payload} {s : PayloadSchema} {k : String}
    {ty : PrimTy} (hs : (k, ty) ∈ s) (hl : lookupField p k = none) :
    FieldError.missing k ∈ validate p s := by
  unfold validate
  refine List.mem_append.mpr (Or.inl (List.mem_filterMap.mpr ⟨(k, ty), hs, ?_⟩))
  simp [hl]

theorem mem_validate_wrongType {p : Payload} {s : PayloadSchema} {k : String}
    {ty : PrimTy} {v : Value} (hs : (k, ty) ∈ s) (hl : lookupField p k = some v)
    (hty : typeOf v ≠ ty) : FieldError.wrongType k ∈ validate p s := by
  unfold validate
  refine List.mem_append.mpr (Or.inl (List.mem_filterMap.mpr ⟨(k, ty), hs, ?_⟩))
  simp [hl, hty]

theorem mem_validate_extra {p : Payload} {s : PayloadSchema} {k : String}
    {val : Value} (hp : (k, val) ∈ p) (hs : lookupSchema s k = none) :
    FieldError.extra k ∈ validate p s := by
  unfold validate
  refine List.mem_append.mpr (Or.inr (List.mem_filterMap.mpr ⟨(k, val), hp, ?_⟩))
  simp [hs]

theorem validate_eq_nil_lookup {p : Payload} {s : PayloadSchema} {k : String}
    {ty : PrimTy} (h : validate p s = []) (hs : (k, ty) ∈ s) :
    ∃ v, lookupField p k = some v ∧ typeOf v = ty := by
  cases hl : lookupField p k with
  | none =>
    have := mem_validate_missing hs hl
    rw [h] at this
    cases this
  | some v =>
    refine ⟨v, rfl, ?_⟩
    by_contra hty
    have := mem_validate_wrongType hs hl hty
    rw [h] at this
    cases this

theorem validate_isEmpty_false_of_mem {p : Payload} {s : PayloadSchema}
    {e : FieldError} (h : e ∈ validate p s) : (validate p s).isEmpty = false := by
  cases hx : validate p s with
  | nil => rw [hx] at h; cases h
  | cons a l => rfl

/-- C1: for every variant in the catalog declaring no payload schema,
`send kind` with no payload succeeds, and `send kind p` for any supplied
payload p (including the empty object) fails with UnexpectedPayload. -/
theorem C1_no_schema_dispatch (cat : Catalog) (v : EventVariant)
    (hu : kindsUnique cat) (hv : v ∈ cat) (hs : v.payloadSchema = none) :
    send cat v.kind none = .ok (v.kind, none) ∧
    ∀ p : Payload, send cat v.kind (some p) = .error .unexpectedPayload := by
  have hf := findVariant_of_mem hu hv
  constructor
  · simp [send, hf, hs]
  · intro p
    simp [send, hf, hs]

/-- Witness for C1 at the SIGN_OUT variant of the Objects.ts catalog,
with the empty object as the supplied payload. -/
theorem C1_witness :
    send catalogEvt "SIGN_OUT" none = .ok ("SIGN_OUT", none) ∧
    send catalogEvt "SIGN_OUT" (some []) = .error .unexpectedPayload := by
  have h := C1_no_schema_dispatch catalogEvt ⟨"SIGN_OUT", none⟩
    (by decide) (by decide) rfl
  exact ⟨h.1, h.2 []⟩

/-- C2: for every variant with a declared payload schema, `send kind`
with no payload fails with ValidationError (missing required payload);
`send kind p` with p matching the schema succeeds; a payload with an
undeclared field fails with an extra-field (closed-schema) error; a payload
whose declared field has the wrong primitive type fails with a
type-mismatch field error. -/
theorem C2_schema_dispatch (cat : Catalog) (v : EventVariant)
    (s : PayloadSchema) (hu : kindsUnique cat) (hv : v ∈ cat)
    (hs : v.payloadSchema = some s) :
    send cat v.kind none = .error (.validationError [.missingPayload]) ∧
    (∀ p : Payload, validate p s = [] →
      send cat v.kind (some p) = .ok (v.kind, some p)) ∧
    (∀ (p : Payload) (k : String) (val : Value), (k, val) ∈ p →
      lookupSchema s k = none →
      ∃ errs, send cat v.kind (some p) = .error (.validationError errs) ∧
        FieldError.extra k ∈ errs) ∧
    (∀ (p : Payload) (k : String) (ty : PrimTy) (val : Value), (k, ty) ∈ s →
      lookupField p k = some val → typeOf val ≠ ty →
      ∃ errs, send cat v.kind (some p) = .error (.validationError errs) ∧
        FieldError.wrongType k ∈ errs) := by
  have hf := findVariant_of_mem hu hv
  refine ⟨?_, ?_, ?_, ?_⟩
  · simp [send, hf, hs]
  · intro p hval
    simp [send, hf, hs, hval]
  · intro p k val hp hnone
    have hmem := mem_validate_extra (s := s) hp hnone
    have hne := validate_isEmpty_false_of_mem hmem
    refine ⟨validate p s, ?_, hmem⟩
    simp [send, hf, hs, hne]
  · intro p k ty val hks hlook hty
    have hmem := mem_validate_wrongType hks hlook hty
    have hne := validate_isEmpty_false_of_mem hmem
    refine ⟨validate p s, ?_, hmem⟩
    simp [send, hf, hs, hne]

/-- Witness for C2 at the SIGN_IN variant of the Objects.ts catalog:
the missing-payload, matching, extra-field and wrong-type cases of the
spec's scenario A, all at concrete payloads. -/
theorem C2_witness :
    send catalogEvt "SIGN_IN" none
      = .error (.validationError [.missingPayload]) ∧
    send catalogEvt "SIGN_IN" (some [("userID", .str "123")])
      = .ok ("SIGN_IN", some [("userID", .str "123")]) ∧
    (∃ errs, send catalogEvt "SIGN_IN"
        (some [("userID", .str "123"), ("other", .num 1)])
      = .error (.validationError errs) ∧ FieldError.extra "other" ∈ errs) ∧
    (∃ errs, send catalogEvt "SIGN_IN" (some [("userID", .num 123)])
      = .error (.validationError errs) ∧
        FieldError.wrongType "userID" ∈ errs) := by
  have h := C2_schema_dispatch catalogEvt ⟨"SIGN_IN", some [("userID", .string)]⟩
    [("userID", .string)] (by decide) (by decide) rfl
  refine ⟨h.1, h.2.1 _ (by decide), ?_, ?_⟩
  · exact h.2.2.1 [("userID", .str "123"), ("other", .num 1)] "other"
      (.num 1) (by decide) (by decide)
  · exact h.2.2.2 [("userID", .num 123)] "userID" .string (.num 123)
      (by decide) (by decide) (by decide)

/-- C3: for every kind not present in the catalog, `schemaFor` fails with
UnknownVariant, and `send` fails with UnknownVariant for every payload,
present or absent. -/
theorem C3_unknown_variant (cat : Catalog) (kind : String)
    (h : kind ∉ cat.map EventVariant.kind) :
    schemaFor cat kind = .error .unknownVariant ∧
    ∀ payload : Option Payload,
      send cat kind payload = .error .unknownVariant := by
  have hf := findVariant_eq_none h
  constructor
  · simp [schemaFor, hf]
  · intro payload
    simp [send, hf]

/-- Witness for C3: the kind FOO is not in the Objects.ts catalog, and
both a missing and a present payload are rejected with UnknownVariant. -/
theorem C3_witness :
    schemaFor catalogEvt "FOO" = .error .unknownVariant ∧
    send catalogEvt "FOO" none = .error .unknownVariant ∧
    send catalogEvt "FOO" (some [("userID", .str "123")])
      = .error .unknownVariant := by
  have h := C3_unknown_variant catalogEvt "FOO" (by decide)
  exact ⟨h.1, h.2 none, h.2 (some [("userID", .str "123")])⟩

/-- C4: a successful CONFIRM dispatch always forwards a payload carrying a
string-typed message field, so reading that field never fails; and in
discriminated.ts, inside the type = confirm branch of Modal the access to
confirmButtonMassage always yields a value. -/
theorem C4_confirm_message_safe :
    (∀ (p : Option Payload) (out : String × Option Payload),
      send catalogProps "CONFIRM" p = .ok out →
      ∃ pl v, out.2 = some pl ∧ lookupField pl "message" = some v ∧
        typeOf v = .string) ∧
    (∀ pr : Props, pr.tag = "confirm" → ∃ m, Modal pr = some m) := by
  constructor
  · intro p out h
    have hf : findVariant catalogProps "CONFIRM"
        = some ⟨"CONFIRM", some [("message", PrimTy.string)]⟩ := by decide
    cases p with
    | none => simp [send, hf] at h
    | some pl =>
      cases hempty : (validate pl [("message", PrimTy.string)]).isEmpty with
      | false => simp [send, hf, hempty] at h
      | true =>
        have hnil : validate pl [("message", PrimTy.string)] = [] :=
          List.isEmpty_iff.mp hempty
        obtain ⟨v, hlook, hty⟩ :=
          validate_eq_nil_lookup hnil (List.mem_singleton.mpr rfl)
        simp [send, hf, hempty] at h
        exact ⟨pl, v, by rw [← h], hlook, hty⟩
  · intro pr h
    cases pr with
    | alert => simp [Props.tag] at h
    | confirm m => exact ⟨m.toUpper, rfl⟩

/-- Witness for C4: the concrete dispatch of the spec's scenario B and the
confirm Modal value with the message "go". -/
theorem C4_witness :
    (∃ pl v,
      ((("CONFIRM" : String),
        some [("message", Value.str "go")]) : String × Option Payload).2
          = some pl ∧
      lookupField pl "message" = some v ∧ typeOf v = .string) ∧
    (∃ m, Modal (Props.confirm "go") = some m) :=
  ⟨C4_confirm_message_safe.1 (some [("message", Value.str "go")])
      ("CONFIRM", some [("message", Value.str "go")]) rfl,
    C4_confirm_message_safe.2 (Props.confirm "go") rfl⟩

/-- C5: whenever `send` forwards at all, it forwards exactly the full
request that was submitted, and that request passed validation; nothing
that failed validation is ever forwarded, and no partial request is. -/
theorem C5_no_invalid_forward (cat : Catalog) (kind : String)
    (payload : Option Payload) (out : String × Option Payload)
    (h : send cat kind payload = .ok out) :
    out = (kind, payload) ∧ requestValid cat kind payload = true := by
  cases hf : findVariant cat kind with
  | none => simp [send, hf] at h
  | some v =>
    cases hsch : v.payloadSchema with
    | none =>
      cases payload with
      | none =>
        simp [send, hf, hsch] at h
        subst h
        simp [requestValid, hf, hsch]
      | some p => simp [send, hf, hsch] at h
    | some s =>
      cases payload with
      | none => simp [send, hf, hsch] at h
      | some p =>
        cases hempty : (validate p s).isEmpty with
        | false => simp [send, hf, hsch, hempty] at h
        | true =>
          simp [send, hf, hsch, hempty] at h
          subst h
          simp [requestValid, hf, hsch, hempty]

/-- Witness for C5 at the successful SIGN_OUT dispatch: the forwarded
value is the full request and the request is valid. -/
theorem C5_witness :
    (("SIGN_OUT", none) : String × Option Payload) = ("SIGN_OUT", none) ∧
    requestValid catalogEvt "SIGN_OUT" none = true :=
  C5_no_invalid_forward catalogEvt "SIGN_OUT" none ("SIGN_OUT", none) rfl

/-- C6: validate is deterministic and stateless: it is a function of the
(payload, schema) pair alone, so identical inputs always yield identical
results. -/
theorem C6_validate_deterministic (p₁ p₂ : Payload) (s₁ s₂ : PayloadSchema)
    (hp : p₁ = p₂) (hs : s₁ = s₂) : validate p₁ s₁ = validate p₂ s₂ := by
  rw [hp, hs]

/-- Witness for C6 at a concrete payload and schema. -/
theorem C6_witness :
    validate [("userID", .str "123")] [("userID", .string)]
      = validate [("userID", .str "123")] [("userID", .string)] :=
  C6_validate_deterministic _ _ _ _ rfl rfl

/-- C7: both concrete catalogs satisfy the catalog invariants: kind
discriminants are unique, and every variant carries either no payload
schema or exactly one; being values of a purely functional embedding, no
operation of the development mutates them. -/
theorem C7_catalog_invariants :
    kindsUnique catalogEvt ∧ kindsUnique catalogProps ∧
    (∀ v ∈ catalogEvt,
      v.payloadSchema = none ∨ ∃ s, v.payloadSchema = some s) ∧
    (∀ v ∈ catalogProps,
      v.payloadSchema = none ∨ ∃ s, v.payloadSchema = some s) := by
  refine ⟨by decide, by decide, ?_, ?_⟩
  · intro v hv
    simp only [catalogEvt, List.mem_cons, List.not_mem_nil, or_false] at hv
    rcases hv with rfl | rfl
    · exact Or.inr ⟨_, rfl⟩
    · exact Or.inl rfl
  · intro v hv
    simp only [catalogProps, List.mem_cons, List.not_mem_nil, or_false] at hv
    rcases hv with rfl | rfl
    · exact Or.inl rfl
    · exact Or.inr ⟨_, rfl⟩

/-- Witness for C7 at the SIGN_IN variant: it carries exactly one schema. -/
theorem C7_witness :
    (⟨"SIGN_IN", some [("userID", .string)]⟩ : EventVariant).payloadSchema
        = none ∨
    ∃ s, (⟨"SIGN_IN", some [("userID", .string)]⟩
        : EventVariant).payloadSchema = some s :=
  C7_catalog_invariants.2.2.1 ⟨"SIGN_IN", some [("userID", .string)]⟩
    (by decide)

/-- C8: the non-null-asserted lookup of ProductDetails succeeds exactly
when the id belongs to some element of PRODUCTS (concretely "foo" yields
"Foo" and "bar" yields "Bar"); for every other id the find yields nothing
and the name access fails. -/
theorem C8_product_details :
    ProductDetails "foo" = some "Foo" ∧ ProductDetails "bar" = some "Bar" ∧
    (∀ id, (ProductDetails id).isSome = true ↔ ∃ p ∈ PRODUCTS, p.id = id) ∧
    (∀ id, id ≠ "foo" → id ≠ "bar" →
      List.find? (fun product => product.id == id) PRODUCTS = none ∧
      ProductDetails id = none) := by
  refine ⟨rfl, rfl, ?_, ?_⟩
  · intro id
    unfold ProductDetails
    constructor
    · intro hs
      cases hfind : List.find? (fun product => product.id == id) PRODUCTS with
      | none => rw [hfind] at hs; simp at hs
      | some p =>
        have hpe := List.find?_some hfind
        exact ⟨p, List.mem_of_find?_eq_some hfind, beq_iff_eq.mp hpe⟩
    · rintro ⟨p, hp, he⟩
      cases hfind : List.find? (fun product => product.id == id) PRODUCTS with
      | none =>
        have hsome : (List.find? (fun product => product.id == id)
            PRODUCTS).isSome = true :=
          List.find?_isSome.mpr ⟨p, hp, beq_iff_eq.mpr he⟩
        rw [hfind] at hsome
        cases hsome
      | some q => rfl
  · intro id h1 h2
    have hfind :
        List.find? (fun product => product.id == id) PRODUCTS = none := by
      rw [List.find?_eq_none]
      intro p hp hb
      simp only [PRODUCTS, List.mem_cons, List.not_mem_nil, or_false] at hp
      have hid := beq_iff_eq.mp hb
      rcases hp with rfl | rfl
      · exact h1 hid.symm
      · exact h2 hid.symm
    exact ⟨hfind, by simp [ProductDetails, hfind]⟩

/-- Witness for C8 at the id baz, which is no product's id: the find
yields nothing and the details are unavailable. -/
theorem C8_witness :
    List.find? (fun product => product.id == "baz") PRODUCTS = none ∧
    ProductDetails "baz" = none :=
  C8_product_details.2.2.2 "baz" (by decide) (by decide)

/-- C9: fetchPokemon resolves exactly when the response is ok and the data
carries a pokemon; the resolved value is that pokemon extended with the
fetchedAt stamp added before returning; in every other case it rejects
with an error and yields no PokemonData. -/
theorem C9_fetch_pokemon (name : String) (response : Response) (now : Date) :
    ((∃ d, fetchPokemon name response now = .ok d) ↔
      (response.ok = true ∧
        ((response.body.data.map QueryData.pokemon).join).isSome = true)) ∧
    (∀ d, fetchPokemon name response now = .ok d →
      d.fetchedAt = formatDate now ∧
      some d.toPokemon = (response.body.data.map QueryData.pokemon).join) ∧
    ((response.ok = false ∨
        (response.body.data.map QueryData.pokemon).join = none) →
      ∃ e, fetchPokemon name response now = .error e) := by
  refine ⟨⟨?_, ?_⟩, ?_, ?_⟩
  · rintro ⟨d, hd⟩
    unfold fetchPokemon at hd
    by_cases hok : response.ok = true
    · rw [if_pos hok] at hd
      cases hj : (response.body.data.map QueryData.pokemon).join with
      | none => rw [hj] at hd; cases hd
      | some pkm => exact ⟨hok, rfl⟩
    · rw [if_neg hok] at hd
      cases hd
  · rintro ⟨hok, hsome⟩
    unfold fetchPokemon
    rw [if_pos hok]
    cases hj : (response.body.data.map QueryData.pokemon).join with
    | none => rw [hj] at hsome; cases hsome
    | some pkm => exact ⟨_, rfl⟩
  · intro d hd
    unfold fetchPokemon at hd
    by_cases hok : response.ok = true
    · rw [if_pos hok] at hd
      cases hj : (response.body.data.map QueryData.pokemon).join with
      | none => rw [hj] at hd; cases hd
      | some pkm =>
        rw [hj] at hd
        injection hd with h
        subst h
        exact ⟨rfl, rfl⟩
    · rw [if_neg hok] at hd
      cases hd
  · intro h
    unfold fetchPokemon
    by_cases hok : response.ok = true
    · rw [if_pos hok]
      cases hj : (response.body.data.map QueryData.pokemon).join with
      | none => exact ⟨_, rfl⟩
      | some pkm =>
        rcases h with h | h
        · rw [hok] at h
          cases h
        · rw [hj] at h
          cases h
    · rw [if_neg hok]
      exact ⟨_, rfl⟩

/-- A concrete pokemon, response and clock reading for instantiating the
fetchPokemon contract. -/
def samplePokemon : Pokemon :=
  ⟨"UG9rZW1vbjowMjU=", "025", "Pikachu", "pikachu.jpg", ⟨[]⟩⟩

/-- A successful concrete response carrying samplePokemon. -/
def sampleResponse : Response :=
  ⟨true, ⟨some ⟨some samplePokemon⟩, none⟩⟩

/-- A concrete clock reading. -/
def sampleDate : Date := ⟨12, 34, 56, 789⟩

/-- Witness for C9: the concrete successful fetch resolves with a value. -/
theorem C9_witness :
    ∃ d, fetchPokemon "pikachu" sampleResponse sampleDate = .ok d :=
  (C9_fetch_pokemon "pikachu" sampleResponse sampleDate).1.mpr ⟨rfl, rfl⟩

/-- C10: every Course is either Free, carrying a url and surely no price,
or Paid, carrying a price and surely no url; none carries both; and the
declared course value has a price and no url. -/
theorem C10_course_union :
    (∀ c : Course, (c.url.isSome = true ∧ c.price = none) ∨
      (c.price.isSome = true ∧ c.url = none)) ∧
    (∀ c : Course, ¬(c.url.isSome = true ∧ c.price.isSome = true)) ∧
    course.price = some 5 ∧ course.url = none := by
  refine ⟨?_, ?_, rfl, rfl⟩
  · intro c
    cases c with
    | free n u => exact Or.inl ⟨rfl, rfl⟩
    | paid n pr => exact Or.inr ⟨rfl, rfl⟩
  · intro c h
    cases c with
    | free n u => simp [Course.price] at h
    | paid n pr => simp [Course.url] at h

/-- Witness for C10 at the declared course value: it cannot carry both a
url and a price. -/
theorem C10_witness :
    ¬(course.url.isSome = true ∧ course.price.isSome = true) :=
  C10_course_union.2.1 course

end CommunityTalk
